import Mathlib

/-!
Verification of the session lifecycle manager of the selenium-webdriver
transport (src/lib/transport/selenium-webdriver/index.js) together with the
Appium capability flattening of the Appium base server
(src/unnamed/part_000).

The JavaScript code is shallowly embedded: plain objects holding string
capabilities become association lists, JS truthiness on optional strings is
made explicit, the mutable module-level cache slots (_driver, _driverService,
_cachedSessionInfo) become an explicit CacheState record threaded through the
operations, and the asynchronous liveness probe is represented by its settle
time and outcome so that the Promise.race against the timeout timer becomes a
comparison of the settle time with the timeout value.
-/

/-- JS truthiness of an optional string: undefined/null and the empty string
are falsy, every other string is truthy. -/
def truthy : Option String → Bool
  | none => false
  | some s => s != ""

/-- JS `a || b` on optional strings: yields a when a is truthy, otherwise b
(which may itself be falsy). -/
def jsOr (a b : Option String) : Option String :=
  if truthy a then a else b

/-- ASCII lowercasing of a string, character by character (the capability
values compared by the matcher are ASCII names). -/
def lowerStr (s : String) : String :=
  ⟨s.data.map Char.toLower⟩

/-- JS `a?.toLowerCase()`: lowercases the value when present, propagates
undefined otherwise. -/
def lowerOpt (a : Option String) : Option String :=
  a.map lowerStr

/-- JS `s.includes(pat)`: substring containment on strings. -/
def strContains (s pat : String) : Bool :=
  decide (pat.toList <:+: s.toList)

/-- Substring containment as a proposition: pat occurs inside s. Used to state
the message claims about handleConnectError for arbitrary host/port/name
values. -/
def MentionsStr (s pat : String) : Prop :=
  ∃ pre post, s = pre ++ pat ++ post

/-! ## JS objects with nested values, for extractAppiumOptions (src/unnamed/part_000)

The desired-capabilities object manipulated by extractAppiumOptions can hold
nested objects (the appium:options bag), so its values are modelled by a
JS-value tree. Key order is that of a JS object: insertion order, with
assignment to an existing key updating it in place. -/

inductive JsValue where
  | str (s : String)
  | bool (b : Bool)
  | num (n : Int)
  | obj (fields : List (String × JsValue))

/-- A JS object: ordered key/value list (no duplicate keys arise from the
operations below). -/
abbrev JsObject := List (String × JsValue)

/-- Property read: value of the first entry with the given key. -/
def objGet (m : JsObject) (key : String) : Option JsValue :=
  (m.find? (fun p => p.1 == key)).map (·.2)

/-- Property assignment: update in place when the key exists, append
otherwise (JS object insertion-order semantics). -/
def objSet (m : JsObject) (key : String) (v : JsValue) : JsObject :=
  if m.any (fun p => p.1 == key) then
    m.map (fun p => if p.1 == key then (key, v) else p)
  else
    m ++ [(key, v)]

/-- The delete operator: removes every entry with the given key. -/
def objDelete (m : JsObject) (key : String) : JsObject :=
  m.filter (fun p => p.1 != key)

/-- isObject check from the utils module: true exactly for object values. -/
def isObjectVal : Option JsValue → Bool
  | some (JsValue.obj _) => true
  | _ => false

/-- extractAppiumOptions (src/unnamed/part_000 lines 10-25): when the
desired capabilities hold an object under the appium:options key, every entry
of that bag is copied to the top level, prefixing the key with appium: when
it does not already start with it, and the appium:options key is then
deleted. When the key is absent or not an object, nothing happens. -/
def extractAppiumOptions (desiredCapabilities : JsObject) : JsObject :=
  match objGet desiredCapabilities "appium:options" with
  | some (JsValue.obj appiumOptions) =>
    let flattened := appiumOptions.foldl (fun acc p =>
      let key := if p.1.startsWith "appium:" then p.1 else "appium:" ++ p.1
      objSet acc key p.2) desiredCapabilities
    objDelete flattened "appium:options"
  | _ => desiredCapabilities

/-! ## Capabilities and the capability matcher

For the matcher and the reuse decider only string-valued capabilities are
read, so capability sets are modelled as association lists of strings; a
missing key reads as undefined. The source supports existing capabilities
either as a map/plain object or as a typed capability object whose
getBrowserName getter returns the browserName capability; both shapes reduce
to key lookup (getCapabilityValue, lines 247-257), so a single lookup shape
is used here. -/

abbrev Caps := List (String × String)

/-- getCapabilityValue (lines 247-257): key lookup on a capability set,
undefined when absent. -/
def getCap (caps : Caps) (key : String) : Option String :=
  (caps.find? (fun p => p.1 == key)).map (·.2)

/-- Modelled from the spec: the platform classification helpers isMobile,
isIos and isAndroid live in lib/utils/mobile.js, which is not part of the
analysed core. Per the spec, the platform is {web, iOS, Android}, inferred
from the desired capabilities on each call, with the platform name resolved
case-insensitively from either of the two known capability keys. -/
def platformOf (caps : Caps) : Option String :=
  jsOr (lowerOpt (getCap caps "platformName")) (lowerOpt (getCap caps "platform"))

/-- Modelled from the spec: iOS classification of a capability set. -/
def isIosCaps (caps : Caps) : Bool :=
  platformOf caps == some "ios"

/-- Modelled from the spec: Android classification of a capability set. -/
def isAndroidCaps (caps : Caps) : Bool :=
  platformOf caps == some "android"

/-- Modelled from the spec: mobile classification of a capability set. -/
def isMobileCaps (caps : Caps) : Bool :=
  isIosCaps caps || isAndroidCaps caps

/-- One guard of capabilitiesMatch: a field mismatches when it is truthy on
both sides and the two values differ (strict inequality on the values as
compared in the source). -/
def capsMismatchField (a b : Option String) : Bool :=
  truthy a && truthy b && a != b

/-- capabilitiesMatch (lines 264-335): false when existing capabilities are
absent; for mobile-classified desired capabilities compares the platform name
(desired side read from the platformName key, existing side from platformName
falling back to platform, both lowercased), then for iOS the device UDID
(appium:udid falling back to safari:deviceUDID) and the bundle id
(appium:bundleId falling back to bundleId), for Android the device UDID
(appium:udid falling back to deviceId) and the app package (appium:appPackage
falling back to appPackage); any both-present mismatch returns false. For all
platforms the browser names are compared case-insensitively when truthy on
both sides. Otherwise true. -/
def capabilitiesMatch (desiredCaps : Caps) (existingCaps : Option Caps) : Bool :=
  match existingCaps with
  | none => false
  | some ex =>
    let isMobilePlatform := isMobileCaps desiredCaps
    let desiredPlatform := lowerOpt (getCap desiredCaps "platformName")
    let existingPlatform :=
      jsOr (lowerOpt (getCap ex "platformName")) (lowerOpt (getCap ex "platform"))
    if isMobilePlatform && capsMismatchField desiredPlatform existingPlatform then
      false
    else if isMobilePlatform && isIosCaps desiredCaps &&
        capsMismatchField
          (jsOr (getCap desiredCaps "appium:udid") (getCap desiredCaps "safari:deviceUDID"))
          (jsOr (getCap ex "appium:udid") (getCap ex "safari:deviceUDID")) then
      false
    else if isMobilePlatform && isIosCaps desiredCaps &&
        capsMismatchField
          (jsOr (getCap desiredCaps "appium:bundleId") (getCap desiredCaps "bundleId"))
          (jsOr (getCap ex "appium:bundleId") (getCap ex "bundleId")) then
      false
    else if isMobilePlatform && isAndroidCaps desiredCaps &&
        capsMismatchField
          (jsOr (getCap desiredCaps "appium:udid") (getCap desiredCaps "deviceId"))
          (jsOr (getCap ex "appium:udid") (getCap ex "deviceId")) then
      false
    else if isMobilePlatform && isAndroidCaps desiredCaps &&
        capsMismatchField
          (jsOr (getCap desiredCaps "appium:appPackage") (getCap desiredCaps "appPackage"))
          (jsOr (getCap ex "appium:appPackage") (getCap ex "appPackage")) then
      false
    else
      let desiredBrowser := getCap desiredCaps "browserName"
      let existingBrowser := getCap ex "browserName"
      if truthy desiredBrowser && truthy existingBrowser &&
          lowerOpt desiredBrowser != lowerOpt existingBrowser then
        false
      else
        true

/-! Field conditions used to state the characterization of capabilitiesMatch
(each one says the corresponding field is absent on at least one side or
equal, under the key fallbacks the source uses). -/

/-- Platform-name field condition of the matcher characterization. -/
def platformFieldOk (d e : Caps) : Bool :=
  !capsMismatchField (lowerOpt (getCap d "platformName"))
    (jsOr (lowerOpt (getCap e "platformName")) (lowerOpt (getCap e "platform")))

/-- iOS device-identifier field condition of the matcher characterization. -/
def iosUdidOk (d e : Caps) : Bool :=
  !capsMismatchField (jsOr (getCap d "appium:udid") (getCap d "safari:deviceUDID"))
    (jsOr (getCap e "appium:udid") (getCap e "safari:deviceUDID"))

/-- iOS bundle-identifier field condition of the matcher characterization. -/
def iosBundleOk (d e : Caps) : Bool :=
  !capsMismatchField (jsOr (getCap d "appium:bundleId") (getCap d "bundleId"))
    (jsOr (getCap e "appium:bundleId") (getCap e "bundleId"))

/-- Android device-identifier field condition of the matcher characterization. -/
def androidUdidOk (d e : Caps) : Bool :=
  !capsMismatchField (jsOr (getCap d "appium:udid") (getCap d "deviceId"))
    (jsOr (getCap e "appium:udid") (getCap e "deviceId"))

/-- Android app-package field condition of the matcher characterization. -/
def androidPackageOk (d e : Caps) : Bool :=
  !capsMismatchField (jsOr (getCap d "appium:appPackage") (getCap d "appPackage"))
    (jsOr (getCap e "appium:appPackage") (getCap e "appPackage"))

/-- Browser-name field condition (case-insensitive) of the matcher
characterization. -/
def browserFieldOk (d e : Caps) : Bool :=
  !(truthy (getCap d "browserName") && truthy (getCap e "browserName") &&
    lowerOpt (getCap d "browserName") != lowerOpt (getCap e "browserName"))

/-! ## The session cache and the reuse decider

The module-level slots _driver, _driverService and _cachedSessionInfo
(lines 16-18), read and written through the static accessors of the
Transport class, form the cache state. The driver handle is opaque and is
modelled by a number; the driver service carries its stopped flag (read by
shouldReuseDriverService). -/

/-- A driver-service handle with the stopped flag consulted by
shouldReuseDriverService (line 226). -/
structure DriverService where
  stopped : Bool
deriving DecidableEq

/-- _cachedSessionInfo entries (lines 374-377 and 484-487): the session id
and a serialized capability snapshot. The capabilities slot mirrors the JS
field, which the guard at line 344 checks for truthiness. -/
structure SessionInfo where
  sessionId : String
  capabilities : Option Caps
deriving DecidableEq

/-- The three module-level cache slots (lines 16-18). -/
structure CacheState where
  driver : Option Nat
  driverService : Option DriverService
  cachedSessionInfo : Option SessionInfo
deriving DecidableEq

/-- Modelled from the spec: the per-target liveness-probe timeout knobs the
settings are said to expose. The source never reads such knobs (see
probeTimeout); these fields exist so that the dependence of the probe
timeout on them can be stated. -/
structure TimeoutKnobs where
  mobileProbeMs : Nat
  desktopProbeMs : Nat
deriving DecidableEq

/-- The webdriver section of the settings read by createSession (line 419)
and handleConnectError. -/
structure WebdriverSettings where
  host : String
  port : Nat
  start_process : Bool
deriving DecidableEq

/-- The settings surface the transport reads: the desired capabilities
(this.desiredCapabilities, line 106) plus the webdriver section and the
spec-described timeout knobs. -/
structure Settings where
  desiredCapabilities : Caps
  webdriver : WebdriverSettings
  timeoutKnobs : TimeoutKnobs
deriving DecidableEq

/-- The liveness-probe timeout of shouldReuseDriver (line 356):
const timeout = isMobilePlatform ? 2000 : 1000. The settings are in scope at
that point of the source (this.settings) but the computation reads only the
platform classification of the desired capabilities; the settings argument
is taken here so that the dependence claimed by the spec can be stated. -/
def probeTimeout (_settings : Settings) (desiredCaps : Caps) : Nat :=
  if isMobileCaps desiredCaps then 2000 else 1000

/-- The liveness probe Transport.driver.getSession() raced against the
timeout timer (lines 360-365): the probe settles after settleTime
milliseconds, either erroring or succeeding; on success the opportunistic
cache fill (lines 368-381) would observe the given session info, or none
when fetching the id or capabilities throws (that failure is swallowed). -/
structure Probe where
  settleTime : Nat
  outcome : Except Unit (Option SessionInfo)

/-- Result of one shouldReuseDriver call: the verdict, the cache state after
the call, and whether the liveness probe (driver.getSession) was invoked. -/
structure ReuseOutcome where
  verdict : Bool
  state : CacheState
  probed : Bool

/-- shouldReuseDriver (lines 337-390): returns false immediately when reuse
was not requested or no driver is cached; when cached session info with a
truthy capability snapshot is present and the snapshot does not match the
desired capabilities, clears the driver and the cached info and returns
false without probing; otherwise races getSession against the
platform-dependent timeout: on timeout or error clears both slots and
returns false, on success opportunistically fills an absent cached-info slot
(a failed fill is swallowed, leaving the slot empty) and returns true. -/
def shouldReuseDriver (settings : Settings) (reuseBrowser : Bool)
    (st : CacheState) (probe : Probe) : ReuseOutcome :=
  if !reuseBrowser || st.driver.isNone then
    ⟨false, st, false⟩
  else
    let desired := settings.desiredCapabilities
    let capsMismatch :=
      match st.cachedSessionInfo with
      | some info =>
        match info.capabilities with
        | some caps => !capabilitiesMatch desired (some caps)
        | none => false
      | none => false
    if capsMismatch then
      ⟨false, { st with driver := none, cachedSessionInfo := none }, false⟩
    else
      let timeout := probeTimeout settings desired
      if probe.settleTime ≥ timeout then
        ⟨false, { st with driver := none, cachedSessionInfo := none }, true⟩
      else
        match probe.outcome with
        | .error _ =>
          ⟨false, { st with driver := none, cachedSessionInfo := none }, true⟩
        | .ok fill =>
          let st' :=
            if st.cachedSessionInfo.isNone then
              { st with cachedSessionInfo := fill }
            else st
          ⟨true, st', true⟩

/-- sessionFinished (lines 199-206): emits the finished event, clears the
static cached-session-info slot, and calls closeDriver. closeDriver
(lines 184-197) stops and clears the transport instance driver-service
reference (this.driverService); it writes neither the static driver slot nor
the static driver-service slot, so on the cache state only the
cached-session-info slot changes. -/
def sessionFinished (st : CacheState) : CacheState :=
  { st with cachedSessionInfo := none }

/-- shouldReuseDriverService (lines 225-227): a driver service is reused when
one is cached, it is not stopped, and browser reuse was requested. -/
def shouldReuseDriverService (reuseBrowser : Bool) (st : CacheState) : Bool :=
  match st.driverService with
  | some svc => !svc.stopped && reuseBrowser
  | none => false

/-- The session data exported by session.exported() (lines 477-505); the id
is falsy when empty, the capabilities when absent (guard at line 483). -/
structure SessionExports where
  sessionId : String
  capabilities : Option Caps
deriving DecidableEq

/-- The external collaborators one createSession run interacts with: the two
potential liveness probes (the call at line 461 and the one inside getDriver,
line 233), the driver a builder.build() would produce, the driver service a
ServiceBuilder would construct, whether its init resolves, and the outcome of
session.exported(). -/
structure SessionEnv where
  probe1 : Probe
  probe2 : Probe
  newDriver : Nat
  newService : DriverService
  serviceInitOk : Bool
  exported : Except Unit SessionExports

/-- The value createSession resolves with (lines 528-533), or an error. -/
inductive SessionResult where
  | ok (sessionId : String) (capabilities : Option Caps) (host : String) (port : Nat)
  | err
deriving DecidableEq

/-- Result of one createSession run: the resolved value or error, the cache
state afterwards, whether a new driver was built (the remote-session-creation
call, builder.build() at line 414), and how many times the liveness probe ran. -/
structure CreateOutcome where
  result : SessionResult
  state : CacheState
  driverCreated : Bool
  probes : Nat

/-- getDriver (lines 232-241): consults shouldReuseDriver; on a true verdict
returns the cached driver, otherwise builds a new driver and installs it in
the cache slot. Returns the state, whether a driver was built, and whether
the probe ran. -/
def getDriver (settings : Settings) (reuseBrowser : Bool) (st : CacheState)
    (probe : Probe) (newDriver : Nat) : CacheState × Bool × Bool :=
  let r := shouldReuseDriver settings reuseBrowser st probe
  if r.verdict then
    (r.state, false, r.probed)
  else
    ({ r.state with driver := some newDriver }, true, r.probed)

/-- The driver-acquisition stage of createSession (lines 459-474): asks
shouldReuseDriver (line 461) — on a true verdict the cached driver is
adopted and no driver is built, otherwise getDriver runs (which repeats the
reuse check before building). Yields the cache state, whether a driver was
built, and the number of liveness probes that ran. -/
def driverStage (settings : Settings) (reuseBrowser : Bool) (env : SessionEnv)
    (st1 : CacheState) : CacheState × Bool × Nat :=
  let r1 := shouldReuseDriver settings reuseBrowser st1 env.probe1
  if r1.verdict then
    (r1.state, false, if r1.probed then 1 else 0)
  else
    let g := getDriver settings reuseBrowser r1.state env.probe2 env.newDriver
    (g.1, g.2.1, (if r1.probed then 1 else 0) + (if g.2.2 then 1 else 0))

/-- createSession (lines 417-540): resolves options; when
webdriver.start_process is set, starts or reuses the driver service
(createDriverService, lines 208-223: the new service handle is stored in the
static slot before init runs, and an init failure propagates); then the
driver stage runs (shouldReuseDriver at line 461, getDriver on a false
verdict); the session is exported and, when the exported id and capabilities
are truthy, the cached session info is refreshed (lines 483-488); resolves
with the session id, capabilities, host and port. An export failure leaves
the cache slots as the driver stage left them and errors out. -/
def createSession (settings : Settings) (reuseBrowser : Bool)
    (env : SessionEnv) (st : CacheState) : CreateOutcome :=
  if settings.webdriver.start_process && !shouldReuseDriverService reuseBrowser st
      && !env.serviceInitOk then
    ⟨.err, { st with driverService := some env.newService }, false, 0⟩
  else
    let st1 :=
      if settings.webdriver.start_process && !shouldReuseDriverService reuseBrowser st then
        { st with driverService := some env.newService }
      else st
    let d := driverStage settings reuseBrowser env st1
    match env.exported with
    | .error _ => ⟨.err, d.1, d.2.1, d.2.2⟩
    | .ok e =>
      let st3 :=
        if e.sessionId != "" && e.capabilities.isSome then
          { d.1 with cachedSessionInfo := some ⟨e.sessionId, e.capabilities⟩ }
        else d.1
      ⟨.ok e.sessionId e.capabilities settings.webdriver.host settings.webdriver.port,
        st3, d.2.1, d.2.2⟩

/-- The cache invariant of the data model: cached session info is non-null
only while the cached driver handle is non-null. -/
def cacheInv (st : CacheState) : Prop :=
  st.cachedSessionInfo.isSome → st.driver.isSome

/-! ## Errors -/

/-- The runtime class of a JS error object, as far as the instanceof checks
of the transport distinguish them: the WebDriverError base class of
selenium-webdriver, the element/session error subclasses the transport tests
for (lines 706-728), or a class outside the WebDriverError hierarchy. -/
inductive ErrClass where
  | webDriverError
  | staleElementReferenceError
  | elementClickInterceptedError
  | invalidElementStateError
  | elementNotInteractableError
  | noSuchWindowError
  | noSuchSessionError
  | otherError
deriving DecidableEq

/-- instanceof WebDriverError: every class of the hierarchy except a foreign
one. -/
def isWebDriverErrorClass : ErrClass → Bool
  | .otherError => false
  | _ => true

/-- A JS error object with the properties the transport reads and writes:
class, name, message, the errno-style code, the diagnostic fields attached by
handleConnectError, and the display flags. Absent properties are none. -/
structure JsErr where
  cls : ErrClass := .otherError
  name : String := "Error"
  message : String := ""
  code : Option String := none
  detailedErr : Option String := none
  extraDetail : Option String := none
  showTrace : Option Bool := none
  reportShown : Option Bool := none
  sessionCreate : Option Bool := none
deriving DecidableEq

/-- A result wrapper as consumed by getErrorResponse (lines 702-704): either
an Error itself, or a response object with an optional error property. -/
inductive JsResult where
  | err (e : JsErr)
  | resp (error : Option JsErr)
deriving DecidableEq

/-- getErrorResponse (lines 702-704): the result itself when it is an Error,
otherwise its error property. -/
def getErrorResponse : JsResult → Option JsErr
  | .err e => some e
  | .resp e => e

/-- isRetryableElementError (lines 730-745): extracts the underlying error;
a generic WebDriverError (instanceof the base class with the base-class
name) is retryable exactly when its message contains one of the configured
transient substrings (getRetryableErrorMessages is inherited from the base
transport, outside this core, and is passed in as the list of substrings);
every other error is retryable exactly when it is one of the four
element-state error kinds. -/
def isRetryableElementError (retryableMessages : List String)
    (result : JsResult) : Bool :=
  match getErrorResponse result with
  | some errorResponse =>
    if isWebDriverErrorClass errorResponse.cls && errorResponse.name == "WebDriverError" then
      retryableMessages.any (fun item => strContains errorResponse.message item)
    else
      errorResponse.cls == .staleElementReferenceError ||
      errorResponse.cls == .elementClickInterceptedError ||
      errorResponse.cls == .invalidElementStateError ||
      errorResponse.cls == .elementNotInteractableError
  | none => false

/-- The instance driver-service handle handleConnectError reads
(this.driverService): its output file path (falsy when unset) and its
formatted settings dump. -/
structure ServiceInfo where
  outputFilePath : Option String
  settingsFormatted : String
deriving DecidableEq

/-- Modelled from the spec: the dedicated Android-connectivity and
iOS-session error types live in lib/utils/mobile.js, which is not part of
the analysed core. Per the spec they re-wrap the underlying error carrying
extra diagnostic payload (the iOS one carries the desired capabilities); the
spec gives them no further behaviour, so the wrappers own no display flags of
their own. A classified connect error is therefore either the decorated
error itself or one of the two wrappers around it. -/
inductive ConnectErrorResult where
  | plain (e : JsErr)
  | androidConnectionError (inner : JsErr)
  | iosSessionNotCreatedError (inner : JsErr) (caps : Caps)
deriving DecidableEq

/-- The error object carried by a classified connect error (the decorated
error itself, or the one a wrapper was built around). -/
def resultErr : ConnectErrorResult → JsErr
  | .plain e => e
  | .androidConnectionError e => e
  | .iosSessionNotCreatedError e _ => e

/-- The showTrace property of the object a classified connect error returns:
for a wrapper this is the wrapper object itself, whose spec-modelled
constructor sets no display flags. -/
def resultShowTrace : ConnectErrorResult → Option Bool
  | .plain e => e.showTrace
  | .androidConnectionError _ => none
  | .iosSessionNotCreatedError _ _ => none

/-- The reportShown property of the object a classified connect error
returns; as with resultShowTrace, the wrappers own none. -/
def resultReportShown : ConnectErrorResult → Option Bool
  | .plain e => e.reportShown
  | .androidConnectionError _ => none
  | .iosSessionNotCreatedError _ _ => none

/-- The message-rewrite phase of handleConnectError (lines 659-668): a
connection-refused code yields the host:port refusal message with the
start_process hint and sets the sessionCreate flag; every other code gets
the generic prefix with the error name and the original message. -/
def rewriteConnectMessage (serviceName : String) (err : JsErr)
    (host : String) (port : Nat) : JsErr :=
  let errMsg := "An error occurred while creating a new " ++ serviceName ++ " session:"
  if err.code == some "ECONNREFUSED" then
    { err with
      sessionCreate := some true,
      message := errMsg ++ " Connection refused to " ++ host ++ ":" ++ toString port ++
        ". If the Webdriver/Selenium service is managed by Nightwatch, check if \"start_process\" is set to \"true\"." }
  else
    { err with message := errMsg ++ " [" ++ err.name ++ "] " ++ err.message }

/-- The detail-attach and wrap phase of handleConnectError (lines 670-687):
when no detailed error is attached yet and a driver service is active,
attaches the config dump and the log-path guidance, then returns early with
the Android wrapper when the message matches the adb patterns, or with the
iOS wrapper when the error name is a known iOS session error and the target
is Safari-on-iOS; every error that is not wrapped is marked with showTrace
false and reportShown true. -/
def attachDetailAndWrap (serviceName : String) (driverService : Option ServiceInfo)
    (isSafariIos : Bool) (iosSessionErrorNames : List String) (desiredCaps : Caps)
    (err1 : JsErr) : ConnectErrorResult :=
  match truthy err1.detailedErr, driverService with
  | false, some svc =>
    let logPath := svc.outputFilePath
    let err2 :=
      { err1 with
        detailedErr := some (" Verify if " ++ serviceName ++
          " is configured correctly; using:\n  " ++ svc.settingsFormatted ++ "\n"),
        extraDetail := some (
          if truthy logPath then
            "\n  More info might be available in the log file: " ++ logPath.getD ""
          else
            "\n  Set webdriver.log_path in your Nightwatch config to retrieve more logs from " ++
              serviceName) }
    if strContains err2.message "Failed to run adb command" ||
        strContains err2.message "no devices online" then
      .androidConnectionError err2
    else if iosSessionErrorNames.contains err2.name && isSafariIos then
      .iosSessionNotCreatedError err2 desiredCaps
    else
      .plain { err2 with showTrace := some false, reportShown := some true }
  | _, _ =>
    .plain { err1 with showTrace := some false, reportShown := some true }

/-- handleConnectError (lines 658-688): the message rewrite followed by the
detail-attach/wrap/mark phase. -/
def handleConnectError (serviceName : String) (driverService : Option ServiceInfo)
    (isSafariIos : Bool) (iosSessionErrorNames : List String) (desiredCaps : Caps)
    (err : JsErr) (host : String) (port : Nat) : ConnectErrorResult :=
  attachDetailAndWrap serviceName driverService isSafariIos iosSessionErrorNames
    desiredCaps (rewriteConnectMessage serviceName err host port)

/-! ## Helper lemmas -/

/-- Reading a deleted key yields undefined. -/
theorem objGet_objDelete (m : JsObject) (k : String) :
    objGet (objDelete m k) k = none := by
  induction m with
  | nil => rfl
  | cons p t ih =>
    simp only [objDelete, List.filter_cons]
    rcases hb : (p.1 != k) with _ | _
    · simp only [Bool.false_eq_true, if_false]
      exact ih
    · simp only [if_true]
      have h : (p.1 == k) = false := by
        simpa [bne] using hb
      simp only [objGet, List.find?_cons, h, cond_false]
      exact ih

/-- When the appium:options key is not present (or not an object), the
flattening does nothing. -/
theorem extractAppiumOptions_of_none (m : JsObject)
    (h : objGet m "appium:options" = none) : extractAppiumOptions m = m := by
  unfold extractAppiumOptions
  rw [h]

/-- A cache state with a driver present satisfies the cache invariant. -/
theorem cacheInv_of_driver_isSome (st : CacheState) (h : st.driver.isSome) :
    cacheInv st := fun _ => h

/-- Exhaustive description of one shouldReuseDriver call: either it returns
false without touching the state or probing (reuse not requested / no cached
driver), or it returns false having cleared the driver and cached-info slots,
or it returns true after a probe with the driver present and untouched, the
state unchanged or the cached-info slot refilled. -/
theorem shouldReuseDriver_cases (settings : Settings) (reuseBrowser : Bool)
    (st : CacheState) (probe : Probe) :
    shouldReuseDriver settings reuseBrowser st probe = ⟨false, st, false⟩ ∨
    ((shouldReuseDriver settings reuseBrowser st probe).verdict = false ∧
      (shouldReuseDriver settings reuseBrowser st probe).state =
        { st with driver := none, cachedSessionInfo := none }) ∨
    ((shouldReuseDriver settings reuseBrowser st probe).verdict = true ∧
      (shouldReuseDriver settings reuseBrowser st probe).probed = true ∧
      st.driver.isSome = true ∧
      ((shouldReuseDriver settings reuseBrowser st probe).state = st ∨
        ∃ fill, (shouldReuseDriver settings reuseBrowser st probe).state =
          { st with cachedSessionInfo := fill })) := by
  unfold shouldReuseDriver
  by_cases h1 : (!reuseBrowser || st.driver.isNone) = true
  · rw [if_pos h1]
    exact Or.inl rfl
  · rw [if_neg h1]
    have hds : st.driver.isSome = true := by
      rcases hd : st.driver with _ | d
      · rw [hd] at h1
        simp at h1
      · rfl
    dsimp only
    rcases hci : st.cachedSessionInfo with _ | info
    · dsimp only
      by_cases h4 : probe.settleTime ≥ probeTimeout settings settings.desiredCapabilities
      · rw [if_pos h4]
        exact Or.inr (Or.inl ⟨rfl, rfl⟩)
      · rw [if_neg h4]
        rcases probe.outcome with u | fill
        · exact Or.inr (Or.inl ⟨rfl, rfl⟩)
        · exact Or.inr (Or.inr ⟨rfl, rfl, hds, Or.inr ⟨fill, rfl⟩⟩)
    · dsimp only
      rcases hcc : info.capabilities with _ | caps
      · dsimp only
        by_cases h4 : probe.settleTime ≥ probeTimeout settings settings.desiredCapabilities
        · rw [if_pos h4]
          exact Or.inr (Or.inl ⟨rfl, rfl⟩)
        · rw [if_neg h4]
          rcases probe.outcome with u | fill
          · exact Or.inr (Or.inl ⟨rfl, rfl⟩)
          · exact Or.inr (Or.inr ⟨rfl, rfl, hds, Or.inl rfl⟩)
      · dsimp only
        by_cases hm : capabilitiesMatch settings.desiredCapabilities (some caps) = true
        · have hmm : (!capabilitiesMatch settings.desiredCapabilities (some caps)) = false := by
            rw [hm]
            rfl
          rw [hmm]
          by_cases h4 : probe.settleTime ≥ probeTimeout settings settings.desiredCapabilities
          · rw [if_pos h4]
            exact Or.inr (Or.inl ⟨rfl, rfl⟩)
          · rw [if_neg h4]
            rcases probe.outcome with u | fill
            · exact Or.inr (Or.inl ⟨rfl, rfl⟩)
            · exact Or.inr (Or.inr ⟨rfl, rfl, hds, Or.inl rfl⟩)
        · have hmm : (!capabilitiesMatch settings.desiredCapabilities (some caps)) = true := by
            rcases hb : capabilitiesMatch settings.desiredCapabilities (some caps) with _ | _
            · rfl
            · exact absurd hb hm
          rw [hmm]
          exact Or.inr (Or.inl ⟨rfl, rfl⟩)

/-- shouldReuseDriver never writes the driver-service slot. -/
theorem reuse_driverService_eq (settings : Settings) (reuseBrowser : Bool)
    (st : CacheState) (probe : Probe) :
    (shouldReuseDriver settings reuseBrowser st probe).state.driverService =
      st.driverService := by
  rcases shouldReuseDriver_cases settings reuseBrowser st probe with
    h | ⟨_, h⟩ | ⟨_, _, _, h | ⟨fill, h⟩⟩
  all_goals rw [h]

/-- shouldReuseDriver leaves the driver slot alone or clears it. -/
theorem reuse_driver_frame (settings : Settings) (reuseBrowser : Bool)
    (st : CacheState) (probe : Probe) :
    (shouldReuseDriver settings reuseBrowser st probe).state.driver = st.driver ∨
    (shouldReuseDriver settings reuseBrowser st probe).state.driver = none := by
  rcases shouldReuseDriver_cases settings reuseBrowser st probe with
    h | ⟨_, h⟩ | ⟨_, _, _, h | ⟨fill, h⟩⟩
  · rw [h]
    exact Or.inl rfl
  · rw [h]
    exact Or.inr rfl
  · rw [h]
    exact Or.inl rfl
  · rw [h]
    exact Or.inl rfl

/-- A true reuse verdict leaves a present driver in the cache. -/
theorem reuse_verdict_isSome (settings : Settings) (reuseBrowser : Bool)
    (st : CacheState) (probe : Probe)
    (h : (shouldReuseDriver settings reuseBrowser st probe).verdict = true) :
    (shouldReuseDriver settings reuseBrowser st probe).state.driver.isSome := by
  rcases shouldReuseDriver_cases settings reuseBrowser st probe with
    hc | ⟨hv, hc⟩ | ⟨_, _, hds, hc | ⟨fill, hc⟩⟩
  · rw [hc] at h
    cases h
  · rw [hv] at h
    cases h
  · rw [hc]
    exact hds
  · rw [hc]
    exact hds

/-- shouldReuseDriver preserves the cache invariant. -/
theorem reuse_inv (settings : Settings) (reuseBrowser : Bool)
    (st : CacheState) (probe : Probe) (h : cacheInv st) :
    cacheInv (shouldReuseDriver settings reuseBrowser st probe).state := by
  rcases shouldReuseDriver_cases settings reuseBrowser st probe with
    hc | ⟨_, hc⟩ | ⟨_, _, hds, hc | ⟨fill, hc⟩⟩
  · rw [hc]
    exact h
  · rw [hc]
    intro hsome
    simp at hsome
  · rw [hc]
    exact h
  · rw [hc]
    intro _
    exact hds

/-- The driver stage of createSession always ends with a driver in the cache
slot (either the reused one or the freshly built one). -/
theorem driverStage_driver_isSome (settings : Settings) (reuseBrowser : Bool)
    (env : SessionEnv) (st1 : CacheState) :
    (driverStage settings reuseBrowser env st1).1.driver.isSome := by
  unfold driverStage
  dsimp only
  split
  · next hv => exact reuse_verdict_isSome settings reuseBrowser st1 env.probe1 hv
  · show (getDriver settings reuseBrowser
        (shouldReuseDriver settings reuseBrowser st1 env.probe1).state env.probe2
        env.newDriver).1.driver.isSome = true
    unfold getDriver
    dsimp only
    split
    · next hv => exact reuse_verdict_isSome settings reuseBrowser _ env.probe2 hv
    · simp

/-- createSession preserves the cache invariant. -/
theorem createSession_inv (settings : Settings) (reuseBrowser : Bool)
    (env : SessionEnv) (st : CacheState) (h : cacheInv st) :
    cacheInv (createSession settings reuseBrowser env st).state := by
  unfold createSession
  split
  · intro hsome
    exact h hsome
  · dsimp only
    split
    · exact cacheInv_of_driver_isSome _ (driverStage_driver_isSome settings reuseBrowser env _)
    · intro hsome
      split
      · exact driverStage_driver_isSome settings reuseBrowser env _
      · exact driverStage_driver_isSome settings reuseBrowser env _

/-- On a capability mismatch with a present driver and a truthy cached
capability snapshot, shouldReuseDriver returns false with both slots cleared
and without probing. -/
theorem reuse_mismatch_eq (settings : Settings) (st : CacheState) (probe : Probe)
    (reuseBrowser : Bool) (i : SessionInfo) (c : Caps)
    (hr : reuseBrowser = true)
    (hd : st.driver.isSome = true)
    (hi : st.cachedSessionInfo = some i)
    (hc : i.capabilities = some c)
    (hm : capabilitiesMatch settings.desiredCapabilities (some c) = false) :
    shouldReuseDriver settings reuseBrowser st probe =
      ⟨false, { st with driver := none, cachedSessionInfo := none }, false⟩ := by
  subst hr
  have hn : st.driver.isNone = false := by
    rcases hdd : st.driver with _ | d
    · rw [hdd] at hd
      cases hd
    · rfl
  simp [shouldReuseDriver, hn, hi, hc, hm]

/-! ## Claim theorems -/

/-- C8: flattening the appium:options bag is idempotent — applying
extractAppiumOptions twice yields the same capability object as applying it
once, so re-flattening an already-flattened object is a no-op. -/
theorem extractAppiumOptions_idempotent (m : JsObject) :
    extractAppiumOptions (extractAppiumOptions m) = extractAppiumOptions m := by
  rcases hg : objGet m "appium:options" with _ | v
  · have he : extractAppiumOptions m = m := extractAppiumOptions_of_none m hg
    rw [he]
    exact he
  · rcases v with s | b | n | fields
    · have he : extractAppiumOptions m = m := by
        unfold extractAppiumOptions
        rw [hg]
      rw [he]
      exact he
    · have he : extractAppiumOptions m = m := by
        unfold extractAppiumOptions
        rw [hg]
      rw [he]
      exact he
    · have he : extractAppiumOptions m = m := by
        unfold extractAppiumOptions
        rw [hg]
      rw [he]
      exact he
    · have hnone : objGet (extractAppiumOptions m) "appium:options" = none := by
        unfold extractAppiumOptions
        rw [hg]
        exact objGet_objDelete _ _
      exact extractAppiumOptions_of_none _ hnone

/-- C10: for every call to shouldReuseDriver, whatever the arguments and the
cache state, the driver-service slot is unchanged and the driver slot is
either exactly its previous value or cleared to none — the reuse decider
never installs a new or different driver handle. -/
theorem shouldReuseDriver_frame (settings : Settings) (reuseBrowser : Bool)
    (st : CacheState) (probe : Probe) :
    (shouldReuseDriver settings reuseBrowser st probe).state.driverService =
      st.driverService ∧
    ((shouldReuseDriver settings reuseBrowser st probe).state.driver = st.driver ∨
      (shouldReuseDriver settings reuseBrowser st probe).state.driver = none) :=
  ⟨reuse_driverService_eq settings reuseBrowser st probe,
    reuse_driver_frame settings reuseBrowser st probe⟩

/-- C3 (amended): the liveness-probe timeout of shouldReuseDriver is the
hardcoded constant pair of line 356 — 2000 ms for mobile-classified desired
capabilities and 1000 ms for desktop ones, not a value read from the
settings — and the mobile timeout is strictly longer than the desktop one. -/
theorem probeTimeout_mobile_longer (s s' : Settings) (cm cd : Caps)
    (hm : isMobileCaps cm = true) (hd : isMobileCaps cd = false) :
    probeTimeout s cm = 2000 ∧ probeTimeout s' cd = 1000 ∧
    probeTimeout s' cd < probeTimeout s cm := by
  unfold probeTimeout
  rw [hm, hd]
  exact ⟨rfl, rfl, by decide⟩

/-- C3 counterexample: two settings that differ in every per-target timeout
knob yield the same probe timeout on the same desired capabilities, so the
timeout used by shouldReuseDriver is not read from the settings knobs. -/
theorem probeTimeout_ignores_knobs :
    (let caps : Caps := [("platformName", "Android")]
     let wd : WebdriverSettings := ⟨"localhost", 4723, false⟩
     let s1 : Settings := ⟨caps, wd, ⟨100, 50⟩⟩
     let s2 : Settings := ⟨caps, wd, ⟨987654, 321⟩⟩
     s1.timeoutKnobs ≠ s2.timeoutKnobs ∧
       probeTimeout s1 caps = probeTimeout s2 caps ∧
       probeTimeout s1 caps = 2000) := by
  decide

/-- Witness for the amended C3 theorem at concrete mobile and desktop
capability sets. -/
theorem probeTimeout_mobile_longer_witness :
    probeTimeout ⟨[], ⟨"localhost", 4444, false⟩, ⟨1, 1⟩⟩ [("browserName", "chrome")] <
      probeTimeout ⟨[], ⟨"localhost", 4723, false⟩, ⟨1, 1⟩⟩ [("platformName", "iOS")] :=
  (probeTimeout_mobile_longer ⟨[], ⟨"localhost", 4723, false⟩, ⟨1, 1⟩⟩
    ⟨[], ⟨"localhost", 4444, false⟩, ⟨1, 1⟩⟩ [("platformName", "iOS")]
    [("browserName", "chrome")] (by decide) (by decide)).2.2

/-- C4: whenever reuse is requested, a driver is cached, and the cached
session info carries a capability snapshot that does not match the desired
capabilities, shouldReuseDriver returns false, clears both the driver slot
and the cached-session-info slot, and never invokes the liveness probe. -/
theorem reuse_mismatch_clears_without_probe (settings : Settings)
    (st : CacheState) (probe : Probe) (i : SessionInfo) (c : Caps) (d : Nat)
    (hd : st.driver = some d)
    (hi : st.cachedSessionInfo = some i)
    (hc : i.capabilities = some c)
    (hm : capabilitiesMatch settings.desiredCapabilities (some c) = false) :
    (shouldReuseDriver settings true st probe).verdict = false ∧
    (shouldReuseDriver settings true st probe).state.driver = none ∧
    (shouldReuseDriver settings true st probe).state.cachedSessionInfo = none ∧
    (shouldReuseDriver settings true st probe).probed = false := by
  rw [reuse_mismatch_eq settings st probe true i c rfl (by rw [hd]; rfl) hi hc hm]
  exact ⟨rfl, rfl, rfl, rfl⟩

/-- Witness for C4 at a concrete cache state whose cached browser name
differs from the desired one. -/
theorem reuse_mismatch_clears_without_probe_witness :
    (shouldReuseDriver ⟨[("browserName", "chrome")], ⟨"localhost", 4444, false⟩, ⟨1, 1⟩⟩
      true ⟨some 7, none, some ⟨"abc", some [("browserName", "firefox")]⟩⟩
      ⟨0, .ok none⟩).verdict = false ∧
    (shouldReuseDriver ⟨[("browserName", "chrome")], ⟨"localhost", 4444, false⟩, ⟨1, 1⟩⟩
      true ⟨some 7, none, some ⟨"abc", some [("browserName", "firefox")]⟩⟩
      ⟨0, .ok none⟩).probed = false :=
  let h := reuse_mismatch_clears_without_probe
    ⟨[("browserName", "chrome")], ⟨"localhost", 4444, false⟩, ⟨1, 1⟩⟩
    ⟨some 7, none, some ⟨"abc", some [("browserName", "firefox")]⟩⟩
    ⟨0, .ok none⟩ ⟨"abc", some [("browserName", "firefox")]⟩
    [("browserName", "firefox")] 7 rfl rfl rfl (by decide)
  ⟨h.1, h.2.2.2⟩

/-- C1 (amended): the session-cache invariant — cached session info is
non-null only while the driver handle is non-null — is preserved by
sessionFinished, shouldReuseDriver and createSession; capability mismatch
and liveness-probe failure/timeout clear the driver and cached-info slots
together; sessionFinished clears only the cached-session-info slot and
leaves the driver slot unchanged (closeDriver stops the driver service, not
the driver). -/
theorem cache_slots_invariant (settings : Settings) (reuseBrowser : Bool)
    (env : SessionEnv) (st : CacheState) (probe : Probe) (hinv : cacheInv st) :
    (cacheInv (sessionFinished st) ∧ (sessionFinished st).cachedSessionInfo = none ∧
      (sessionFinished st).driver = st.driver) ∧
    cacheInv (shouldReuseDriver settings reuseBrowser st probe).state ∧
    cacheInv (createSession settings reuseBrowser env st).state ∧
    ((shouldReuseDriver settings reuseBrowser st probe).probed = true →
      (shouldReuseDriver settings reuseBrowser st probe).verdict = false →
      (shouldReuseDriver settings reuseBrowser st probe).state.driver = none ∧
      (shouldReuseDriver settings reuseBrowser st probe).state.cachedSessionInfo = none) ∧
    (∀ i c, st.cachedSessionInfo = some i → i.capabilities = some c →
      capabilitiesMatch settings.desiredCapabilities (some c) = false →
      reuseBrowser = true → st.driver.isSome = true →
      (shouldReuseDriver settings reuseBrowser st probe).state.driver = none ∧
      (shouldReuseDriver settings reuseBrowser st probe).state.cachedSessionInfo = none) := by
  refine ⟨⟨fun hsome => Bool.noConfusion hsome, rfl, rfl⟩,
    reuse_inv settings reuseBrowser st probe hinv,
    createSession_inv settings reuseBrowser env st hinv, ?_, ?_⟩
  · intro hp hv
    rcases shouldReuseDriver_cases settings reuseBrowser st probe with
      hc | ⟨_, hc⟩ | ⟨hv3, _, _, _⟩
    · rw [hc] at hp
      cases hp
    · rw [hc]
      exact ⟨rfl, rfl⟩
    · rw [hv3] at hv
      cases hv
  · intro i c hi hc hm hr hd
    rw [reuse_mismatch_eq settings st probe reuseBrowser i c hr hd hi hc hm]
    exact ⟨rfl, rfl⟩

/-- C1 counterexample: on session-finish the driver slot is not set to
empty — sessionFinished clears the cached session info but leaves the cached
driver handle in place. -/
theorem sessionFinished_keeps_driver :
    (sessionFinished ⟨some 7, none, some ⟨"abc", some [("browserName", "chrome")]⟩⟩).driver
      = some 7 ∧
    (sessionFinished ⟨some 7, none, some ⟨"abc", some [("browserName", "chrome")]⟩⟩).cachedSessionInfo
      = none :=
  ⟨rfl, rfl⟩

/-- Witness for the amended C1 theorem at a concrete state and environment. -/
theorem cache_slots_invariant_witness :
    cacheInv (sessionFinished ⟨some 3, none, none⟩) ∧
    (sessionFinished ⟨some 3, none, none⟩).driver =
      (⟨some 3, none, none⟩ : CacheState).driver :=
  let h := cache_slots_invariant ⟨[], ⟨"localhost", 4444, false⟩, ⟨1, 2⟩⟩ true
    ⟨⟨0, .ok none⟩, ⟨0, .ok none⟩, 0, ⟨false⟩, true, .ok ⟨"s", some []⟩⟩
    ⟨some 3, none, none⟩ ⟨0, .ok none⟩ (fun hsome => Bool.noConfusion hsome)
  ⟨h.1.1, h.1.2.2⟩

/-- With reuse requested, a cached driver, a matching truthy cached
capability snapshot, and a probe that succeeds within the timeout,
shouldReuseDriver returns true, probes once, and leaves the state
untouched. -/
theorem reuse_hit_eq (settings : Settings) (st : CacheState) (probe : Probe)
    (reuseBrowser : Bool) (i : SessionInfo) (c : Caps) (d : Nat)
    (fill : Option SessionInfo)
    (hr : reuseBrowser = true)
    (hd : st.driver = some d)
    (hi : st.cachedSessionInfo = some i)
    (hc : i.capabilities = some c)
    (hm : capabilitiesMatch settings.desiredCapabilities (some c) = true)
    (hp : probe.settleTime < probeTimeout settings settings.desiredCapabilities)
    (ho : probe.outcome = Except.ok fill) :
    shouldReuseDriver settings reuseBrowser st probe = ⟨true, st, true⟩ := by
  subst hr
  have hn : st.driver.isNone = false := by
    rw [hd]
    rfl
  have hp' : ¬ probe.settleTime ≥ probeTimeout settings settings.desiredCapabilities :=
    Nat.not_le.mpr hp
  simp [shouldReuseDriver, hn, hi, hc, hm, hp', ho]

/-- Under the reuse-hit hypotheses, the driver stage adopts the cached
driver: no driver is built and exactly one probe runs. -/
theorem driverStage_hit (settings : Settings) (reuseBrowser : Bool)
    (env : SessionEnv) (st1 : CacheState) (i : SessionInfo) (c : Caps) (d : Nat)
    (fill : Option SessionInfo)
    (hr : reuseBrowser = true)
    (hd : st1.driver = some d)
    (hi : st1.cachedSessionInfo = some i)
    (hc : i.capabilities = some c)
    (hm : capabilitiesMatch settings.desiredCapabilities (some c) = true)
    (hp : env.probe1.settleTime < probeTimeout settings settings.desiredCapabilities)
    (ho : env.probe1.outcome = Except.ok fill) :
    driverStage settings reuseBrowser env st1 = (st1, false, 1) := by
  have h := reuse_hit_eq settings st1 env.probe1 reuseBrowser i c d fill hr hd hi hc hm hp ho
  simp [driverStage, h]

/-- Every classified connect error returned without re-wrapping carries the
display flags: showTrace false and reportShown true. -/
theorem attachDetailAndWrap_plain_flags (serviceName : String)
    (driverService : Option ServiceInfo) (isSafariIos : Bool)
    (iosSessionErrorNames : List String) (desiredCaps : Caps) (err1 : JsErr)
    (e : JsErr)
    (h : attachDetailAndWrap serviceName driverService isSafariIos
      iosSessionErrorNames desiredCaps err1 = ConnectErrorResult.plain e) :
    e.showTrace = some false ∧ e.reportShown = some true := by
  unfold attachDetailAndWrap at h
  split at h
  · dsimp only at h
    split at h
    · exact ConnectErrorResult.noConfusion h
    · split at h
      · exact ConnectErrorResult.noConfusion h
      · injection h with h'
        subst h'
        exact ⟨rfl, rfl⟩
  · injection h with h'
    subst h'
    exact ⟨rfl, rfl⟩

/-- The detail-attach and wrap phase never changes the message: the error
carried by the classified result has the message the rewrite phase
produced. -/
theorem attachDetailAndWrap_message (serviceName : String)
    (driverService : Option ServiceInfo) (isSafariIos : Bool)
    (iosSessionErrorNames : List String) (desiredCaps : Caps) (err1 : JsErr) :
    (resultErr (attachDetailAndWrap serviceName driverService isSafariIos
      iosSessionErrorNames desiredCaps err1)).message = err1.message := by
  unfold attachDetailAndWrap
  split
  · dsimp only
    split
    · rfl
    · split
      · rfl
      · rfl
  · rfl

/-- C5: when reuse is requested, the cached driver's liveness probe succeeds
within the timeout, and the cached capability snapshot matches the desired
capabilities, createSession completes with the exported session info without
ever invoking the remote-session-creation call — no driver is built, and
only the single liveness probe plus the session export run. -/
theorem createSession_reuses_driver (settings : Settings) (reuseBrowser : Bool)
    (env : SessionEnv) (st : CacheState) (i : SessionInfo) (c : Caps) (d : Nat)
    (fill : Option SessionInfo) (e : SessionExports)
    (hr : reuseBrowser = true)
    (hd : st.driver = some d)
    (hi : st.cachedSessionInfo = some i)
    (hc : i.capabilities = some c)
    (hm : capabilitiesMatch settings.desiredCapabilities (some c) = true)
    (hp : env.probe1.settleTime < probeTimeout settings settings.desiredCapabilities)
    (ho : env.probe1.outcome = Except.ok fill)
    (hinit : env.serviceInitOk = true)
    (he : env.exported = Except.ok e) :
    (createSession settings reuseBrowser env st).driverCreated = false ∧
    (createSession settings reuseBrowser env st).result =
      SessionResult.ok e.sessionId e.capabilities settings.webdriver.host
        settings.webdriver.port ∧
    (createSession settings reuseBrowser env st).probes = 1 := by
  unfold createSession
  have hsvc : ¬ ((settings.webdriver.start_process
      && !shouldReuseDriverService reuseBrowser st && !env.serviceInitOk) = true) := by
    rw [hinit]
    simp
  rw [if_neg hsvc]
  dsimp only
  have h1d : (if settings.webdriver.start_process && !shouldReuseDriverService reuseBrowser st
      then { st with driverService := some env.newService } else st).driver = some d := by
    split
    · exact hd
    · exact hd
  have h1i : (if settings.webdriver.start_process && !shouldReuseDriverService reuseBrowser st
      then { st with driverService := some env.newService } else st).cachedSessionInfo
      = some i := by
    split
    · exact hi
    · exact hi
  rw [driverStage_hit settings reuseBrowser env _ i c d fill hr h1d h1i hc hm hp ho, he]
  exact ⟨rfl, rfl, rfl⟩

/-- Witness for C5: a concrete cached Chrome session is adopted without a
driver build when the desired browser name matches case-insensitively. -/
theorem createSession_reuses_driver_witness :
    (createSession ⟨[("browserName", "chrome")], ⟨"localhost", 4444, false⟩, ⟨1, 1⟩⟩
      true ⟨⟨10, .ok none⟩, ⟨0, .ok none⟩, 99, ⟨false⟩, true,
        .ok ⟨"sid2", some [("browserName", "chrome")]⟩⟩
      ⟨some 7, none, some ⟨"sid", some [("browserName", "Chrome")]⟩⟩).driverCreated
      = false ∧
    (createSession ⟨[("browserName", "chrome")], ⟨"localhost", 4444, false⟩, ⟨1, 1⟩⟩
      true ⟨⟨10, .ok none⟩, ⟨0, .ok none⟩, 99, ⟨false⟩, true,
        .ok ⟨"sid2", some [("browserName", "chrome")]⟩⟩
      ⟨some 7, none, some ⟨"sid", some [("browserName", "Chrome")]⟩⟩).probes = 1 :=
  let h := createSession_reuses_driver
    ⟨[("browserName", "chrome")], ⟨"localhost", 4444, false⟩, ⟨1, 1⟩⟩ true
    ⟨⟨10, .ok none⟩, ⟨0, .ok none⟩, 99, ⟨false⟩, true,
      .ok ⟨"sid2", some [("browserName", "chrome")]⟩⟩
    ⟨some 7, none, some ⟨"sid", some [("browserName", "Chrome")]⟩⟩
    ⟨"sid", some [("browserName", "Chrome")]⟩ [("browserName", "Chrome")] 7 none
    ⟨"sid2", some [("browserName", "chrome")]⟩
    rfl rfl rfl rfl (by decide) (by decide) rfl rfl rfl
  ⟨h.1, h.2.2⟩

/-- C6 (amended): characterization of capabilitiesMatch. It returns false
when the existing capabilities are absent. It returns true whenever the
platform name, the four identifying device/app fields (each resolved through
its two alternate keys), and the browser name are each absent (falsy) on at
least one side or equal — case-insensitively for platform and browser name.
It returns false whenever a field relevant to the desired capabilities'
platform classification is truthy on both sides and differs: the browser
name for every platform, the platform name and the iOS device/bundle fields
when the desired capabilities are classified iOS, the platform name and the
Android device/package fields when they are classified Android. Fields of a
platform other than the desired classification are not compared. -/
theorem capabilitiesMatch_characterization (d e : Caps) :
    capabilitiesMatch d none = false ∧
    (platformFieldOk d e = true → iosUdidOk d e = true → iosBundleOk d e = true →
      androidUdidOk d e = true → androidPackageOk d e = true →
      browserFieldOk d e = true → capabilitiesMatch d (some e) = true) ∧
    (browserFieldOk d e = false → capabilitiesMatch d (some e) = false) ∧
    (isMobileCaps d = true → platformFieldOk d e = false →
      capabilitiesMatch d (some e) = false) ∧
    (isIosCaps d = true → iosUdidOk d e = false →
      capabilitiesMatch d (some e) = false) ∧
    (isIosCaps d = true → iosBundleOk d e = false →
      capabilitiesMatch d (some e) = false) ∧
    (isAndroidCaps d = true → androidUdidOk d e = false →
      capabilitiesMatch d (some e) = false) ∧
    (isAndroidCaps d = true → androidPackageOk d e = false →
      capabilitiesMatch d (some e) = false) := by
  have hios : isIosCaps d = true → isMobileCaps d = true := by
    intro h
    simp [isMobileCaps, h]
  have hand : isAndroidCaps d = true → isMobileCaps d = true := by
    intro h
    simp [isMobileCaps, h]
  refine ⟨rfl, ?_, ?_, ?_, ?_, ?_, ?_, ?_⟩
  · intro p1 p2 p3 p4 p5 p6
    simp only [platformFieldOk, iosUdidOk, iosBundleOk, androidUdidOk, androidPackageOk,
      browserFieldOk, Bool.not_eq_true'] at p1 p2 p3 p4 p5 p6
    unfold capabilitiesMatch
    dsimp only
    split_ifs with g1 g2 g3 g4 g5 g6
    all_goals simp_all
  · intro h
    simp only [browserFieldOk, Bool.not_eq_false'] at h
    unfold capabilitiesMatch
    dsimp only
    split_ifs with g1 g2 g3 g4 g5
    all_goals simp_all
  · intro h1 h2
    simp only [platformFieldOk, Bool.not_eq_false'] at h2
    unfold capabilitiesMatch
    dsimp only
    split_ifs with g1 g2 g3 g4 g5 g6
    all_goals simp_all
  · intro h1 h2
    have hm1 := hios h1
    simp only [iosUdidOk, Bool.not_eq_false'] at h2
    unfold capabilitiesMatch
    dsimp only
    split_ifs with g1 g2 g3 g4 g5 g6
    all_goals simp_all
  · intro h1 h2
    have hm1 := hios h1
    simp only [iosBundleOk, Bool.not_eq_false'] at h2
    unfold capabilitiesMatch
    dsimp only
    split_ifs with g1 g2 g3 g4 g5 g6
    all_goals simp_all
  · intro h1 h2
    have hm1 := hand h1
    simp only [androidUdidOk, Bool.not_eq_false'] at h2
    unfold capabilitiesMatch
    dsimp only
    split_ifs with g1 g2 g3 g4 g5 g6
    all_goals simp_all
  · intro h1 h2
    have hm1 := hand h1
    simp only [androidPackageOk, Bool.not_eq_false'] at h2
    unfold capabilitiesMatch
    dsimp only
    split_ifs with g1 g2 g3 g4 g5 g6
    all_goals simp_all

/-- C6 counterexample: for a desired capability set that is not classified
mobile, the platform name is not compared at all — here it is truthy on both
sides and differs, yet the matcher returns true. -/
theorem capabilitiesMatch_nonmobile_platform_ignored :
    capabilitiesMatch [("browserName", "chrome"), ("platformName", "windows")]
      (some [("browserName", "chrome"), ("platformName", "mac")]) = true ∧
    truthy (getCap [("browserName", "chrome"), ("platformName", "windows")]
      "platformName") = true ∧
    truthy (getCap [("browserName", "chrome"), ("platformName", "mac")]
      "platformName") = true ∧
    getCap [("browserName", "chrome"), ("platformName", "windows")] "platformName" ≠
      getCap [("browserName", "chrome"), ("platformName", "mac")] "platformName" := by
  decide

/-- Witness for the amended C6 theorem: an iOS pair whose identifying fields
agree through the alternate keys matches. -/
theorem capabilitiesMatch_characterization_witness :
    capabilitiesMatch
      [("platformName", "iOS"), ("appium:udid", "X1"), ("browserName", "Safari")]
      (some [("platformName", "ios"), ("safari:deviceUDID", "X1"),
        ("browserName", "safari")]) = true :=
  ((capabilitiesMatch_characterization
      [("platformName", "iOS"), ("appium:udid", "X1"), ("browserName", "Safari")]
      [("platformName", "ios"), ("safari:deviceUDID", "X1"),
        ("browserName", "safari")]).2.1)
    (by decide) (by decide) (by decide) (by decide) (by decide) (by decide)

/-- C7: isRetryableElementError is true for each of the four element-state
error kinds (whose names differ from the generic WebDriverError name, as the
selenium error constructors guarantee), true for a generically-typed
WebDriverError whose message contains one of the configured transient
substrings, and false for an error outside the WebDriverError hierarchy
whose message contains none of them. -/
theorem isRetryableElementError_characterization (retryableMessages : List String)
    (result : JsResult) (e : JsErr)
    (hres : getErrorResponse result = some e) :
    ((e.cls = ErrClass.staleElementReferenceError ∨
      e.cls = ErrClass.elementClickInterceptedError ∨
      e.cls = ErrClass.invalidElementStateError ∨
      e.cls = ErrClass.elementNotInteractableError) →
      e.name ≠ "WebDriverError" →
      isRetryableElementError retryableMessages result = true) ∧
    (isWebDriverErrorClass e.cls = true → e.name = "WebDriverError" →
      retryableMessages.any (fun item => strContains e.message item) = true →
      isRetryableElementError retryableMessages result = true) ∧
    (e.cls = ErrClass.otherError →
      retryableMessages.any (fun item => strContains e.message item) = false →
      isRetryableElementError retryableMessages result = false) := by
  unfold isRetryableElementError
  rw [hres]
  refine ⟨?_, ?_, ?_⟩
  · intro hk hn
    have hn' : (e.name == "WebDriverError") = false := by
      simpa using hn
    rcases hk with h | h | h | h
    all_goals simp [h, hn']
  · intro hw hn hmsg
    simp [hw, hn, hmsg]
  · intro hcls hmsg
    simp [hcls, isWebDriverErrorClass]

/-- Witness for C7 at a concrete stale-element error inside a result
wrapper. -/
theorem isRetryableElementError_characterization_witness :
    isRetryableElementError ["element click intercepted"]
      (JsResult.err
        { cls := ErrClass.staleElementReferenceError,
          name := "StaleElementReferenceError",
          message := "stale element reference" }) = true :=
  ((isRetryableElementError_characterization ["element click intercepted"]
      (JsResult.err
        { cls := ErrClass.staleElementReferenceError,
          name := "StaleElementReferenceError",
          message := "stale element reference" })
      { cls := ErrClass.staleElementReferenceError,
        name := "StaleElementReferenceError",
        message := "stale element reference" } rfl).1)
    (Or.inl rfl) (by decide)

/-- C2 (amended): every connect error that handleConnectError returns
without re-wrapping is marked with showTrace false and reportShown true; the
errors re-wrapped into the Android-connectivity and iOS-session types are
returned before the marking step and therefore carry no such marks from
handleConnectError. -/
theorem handleConnectError_marks_unwrapped (serviceName : String)
    (driverService : Option ServiceInfo) (isSafariIos : Bool)
    (iosSessionErrorNames : List String) (desiredCaps : Caps) (err : JsErr)
    (host : String) (port : Nat) (e : JsErr)
    (h : handleConnectError serviceName driverService isSafariIos
      iosSessionErrorNames desiredCaps err host port = ConnectErrorResult.plain e) :
    e.showTrace = some false ∧ e.reportShown = some true :=
  attachDetailAndWrap_plain_flags serviceName driverService isSafariIos
    iosSessionErrorNames desiredCaps (rewriteConnectMessage serviceName err host port) e h

set_option maxRecDepth 4096 in
/-- C2 counterexample: an adb-connectivity failure with an active driver
service is re-wrapped into the Android error and returned before the marking
step, so the returned object carries neither showTrace false nor reportShown
true. -/
theorem handleConnectError_android_unmarked :
    resultShowTrace (handleConnectError "Appium" (some ⟨none, "settings dump"⟩) false []
      [] { message := "Failed to run adb command" } "localhost" 4723) = none ∧
    resultReportShown (handleConnectError "Appium" (some ⟨none, "settings dump"⟩) false []
      [] { message := "Failed to run adb command" } "localhost" 4723) = none ∧
    ∃ inner, handleConnectError "Appium" (some ⟨none, "settings dump"⟩) false []
      [] { message := "Failed to run adb command" } "localhost" 4723 =
        ConnectErrorResult.androidConnectionError inner :=
  ⟨rfl, rfl, ⟨_, rfl⟩⟩

/-- Witness for the amended C2 theorem: a plain classified error at concrete
inputs carries both marks. -/
theorem handleConnectError_marks_unwrapped_witness :
    ({ cls := ErrClass.otherError, name := "Error",
       message := "An error occurred while creating a new ChromeDriver session: [Error] boom",
       showTrace := some false, reportShown := some true } : JsErr).showTrace
      = some false ∧
    ({ cls := ErrClass.otherError, name := "Error",
       message := "An error occurred while creating a new ChromeDriver session: [Error] boom",
       showTrace := some false, reportShown := some true } : JsErr).reportShown
      = some true :=
  handleConnectError_marks_unwrapped "ChromeDriver" none false [] []
    { message := "boom" } "localhost" 9515 _ rfl

/-- C9 (amended): handleConnectError on a connection-refused code produces a
message containing the host, the port and the start_process hint; on every
other code the message is exactly the generic prefix naming the service
followed by the error name and the original message — so it mentions the
start_process phrase only when the service name, the error name or the
incoming message already does. -/
theorem handleConnectError_message_shape (serviceName : String)
    (driverService : Option ServiceInfo) (isSafariIos : Bool)
    (iosSessionErrorNames : List String) (desiredCaps : Caps) (err : JsErr)
    (host : String) (port : Nat) :
    (err.code = some "ECONNREFUSED" →
      MentionsStr (resultErr (handleConnectError serviceName driverService isSafariIos
        iosSessionErrorNames desiredCaps err host port)).message host ∧
      MentionsStr (resultErr (handleConnectError serviceName driverService isSafariIos
        iosSessionErrorNames desiredCaps err host port)).message (toString port) ∧
      MentionsStr (resultErr (handleConnectError serviceName driverService isSafariIos
        iosSessionErrorNames desiredCaps err host port)).message "start_process") ∧
    (err.code ≠ some "ECONNREFUSED" →
      (resultErr (handleConnectError serviceName driverService isSafariIos
        iosSessionErrorNames desiredCaps err host port)).message =
        "An error occurred while creating a new " ++ serviceName ++ " session:" ++
          " [" ++ err.name ++ "] " ++ err.message) := by
  have hbase : (resultErr (handleConnectError serviceName driverService isSafariIos
      iosSessionErrorNames desiredCaps err host port)).message =
      (rewriteConnectMessage serviceName err host port).message :=
    attachDetailAndWrap_message serviceName driverService isSafariIos
      iosSessionErrorNames desiredCaps (rewriteConnectMessage serviceName err host port)
  constructor
  · intro hcode
    have hmsg : (rewriteConnectMessage serviceName err host port).message =
        "An error occurred while creating a new " ++ serviceName ++ " session:" ++
          " Connection refused to " ++ host ++ ":" ++ toString port ++
          ". If the Webdriver/Selenium service is managed by Nightwatch, check if \"start_process\" is set to \"true\"." := by
      unfold rewriteConnectMessage
      dsimp only
      rw [if_pos (show (err.code == some "ECONNREFUSED") = true by rw [hcode]; rfl)]
    rw [hbase, hmsg]
    refine ⟨⟨"An error occurred while creating a new " ++ serviceName ++ " session:" ++
        " Connection refused to ",
      ":" ++ toString port ++
        ". If the Webdriver/Selenium service is managed by Nightwatch, check if \"start_process\" is set to \"true\".",
      by simp [String.append_assoc]⟩,
      ⟨"An error occurred while creating a new " ++ serviceName ++ " session:" ++
        " Connection refused to " ++ host ++ ":",
      ". If the Webdriver/Selenium service is managed by Nightwatch, check if \"start_process\" is set to \"true\".",
      by simp [String.append_assoc]⟩,
      ⟨"An error occurred while creating a new " ++ serviceName ++ " session:" ++
        " Connection refused to " ++ host ++ ":" ++ toString port ++
        ". If the Webdriver/Selenium service is managed by Nightwatch, check if \"",
      "\" is set to \"true\".", ?_⟩⟩
    rw [show (". If the Webdriver/Selenium service is managed by Nightwatch, check if \"start_process\" is set to \"true\"." : String) =
        ". If the Webdriver/Selenium service is managed by Nightwatch, check if \"" ++
          "start_process" ++ "\" is set to \"true\"." from rfl]
    simp [String.append_assoc]
  · intro hcode
    have hne : (err.code == some "ECONNREFUSED") = false := by
      simpa using hcode
    rw [hbase]
    unfold rewriteConnectMessage
    dsimp only
    rw [if_neg (fun hcon => by rw [hne] at hcon; exact Bool.noConfusion hcon)]

/-- C9 counterexample: for an error whose code is not the connection-refused
code, the incoming message passes through into the produced message, so a
message that already contains the start_process phrase still mentions it —
the produced message is not free of the phrase for other codes. -/
theorem handleConnectError_passthrough_start_process :
    MentionsStr (resultErr (handleConnectError "ChromeDriver" none false [] []
      { name := "Error", message := "ensure start_process is enabled",
        code := some "ENOTFOUND" } "localhost" 9515)).message "start_process" ∧
    ({ name := "Error", message := "ensure start_process is enabled",
       code := some "ENOTFOUND" } : JsErr).code ≠ some "ECONNREFUSED" :=
  ⟨⟨"An error occurred while creating a new ChromeDriver session: [Error] ensure ",
    " is enabled", rfl⟩, by decide⟩

/-- Witness for the amended C9 theorem: the refusal message at concrete
inputs mentions the start_process setting. -/
theorem handleConnectError_message_shape_witness :
    MentionsStr (resultErr (handleConnectError "ChromeDriver" none false [] []
      { name := "Error", message := "boom", code := some "ECONNREFUSED" }
      "localhost" 9515)).message "start_process" :=
  ((handleConnectError_message_shape "ChromeDriver" none false [] []
    { name := "Error", message := "boom", code := some "ECONNREFUSED" }
    "localhost" 9515).1 rfl).2.2
